import Mathlib

/-!
Verification of the `DatabaseConnector` core of `src/server.py` (a PostgreSQL
introspection/query gateway).  The Python class is shallowly embedded:

* the single mutable connection (`self.conn`, a driver handle with a `closed`
  flag) becomes an explicit `ConnState` that records every handle ever created,
  which of them are closed, and which one `self.conn` currently references;
* the psycopg2 driver is an oracle: each operation receives the driver's
  response to the one statement it executes (`Fetch` / `ExecResp`), either a
  row list or a raised exception;
* Python dictionaries returned by the operations become association lists of
  `Value`s, built field-for-field as in the source;
* the statement actually handed to the driver (text plus bind parameters) is
  returned alongside the response, so that "no SQL is sent" and "the text does
  not depend on the caller's strings" are statable.

None of the operation methods assign to `self.conn`, so they take the
connection state read-only: the handle after any operation is the handle
before it, by construction of the translation.
-/

namespace DBServer

/-! ### Python string primitives used by the guard in `execute_query` -/

/-- Characters removed by Python `str.strip()` (ASCII whitespace). -/
def pyIsSpace (c : Char) : Bool :=
  c == ' ' || c == '\t' || c == '\n' || c == '\r' || c == '\x0B' || c == '\x0C'

/-- Boolean list-prefix test (model of `str.startswith` on the char level). -/
def listIsPrefixOf : List Char → List Char → Bool
  | [], _ => true
  | _ :: _, [] => false
  | a :: as, b :: bs => a == b && listIsPrefixOf as bs

/-- Python `str.strip()`: drop whitespace from both ends. -/
def pyStrip (s : String) : String :=
  String.mk (((s.toList.dropWhile pyIsSpace).reverse.dropWhile pyIsSpace).reverse)

/-- Python `str.lower()` (faithful on ASCII, which is all the guard compares). -/
def pyLower (s : String) : String :=
  String.mk (s.toList.map Char.toLower)

/-- Python `s.startswith(pre)`. -/
def startswith (s pre : String) : Bool :=
  listIsPrefixOf pre.toList s.toList

/-- The guard of `execute_query` (src/server.py line 219):
`query.strip().lower().startswith("select")`. -/
def selectGuard (query : String) : Bool :=
  startswith (pyLower (pyStrip query)) "select"

/-! ### Values and dictionaries -/

/-- Python values appearing in the dictionaries the server builds. -/
inductive Value where
  | str (s : String)
  | int (n : Int)
  | list (vs : List Value)
  | dict (kvs : List (String × Value))
  | none

/-- A Python dict as the server constructs them: an association list whose
order is the literal field order of the source. -/
abbrev Dict := List (String × Value)

/-- The keys of a response dictionary. -/
def dictKeys (d : Dict) : List String := d.map Prod.fst

/-- Python `zip`: truncates to the shorter list. -/
def pyZip : List String → List Value → List (String × Value)
  | a :: as, b :: bs => (a, b) :: pyZip as bs
  | _, _ => []

/-- One insertion into a Python dict: an existing key keeps its position and
gets the new value, a new key is appended. -/
def pyDictInsert : List (String × Value) → String → Value → List (String × Value)
  | [], k, v => [(k, v)]
  | (k0, v0) :: rest, k, v =>
      if k0 == k then (k0, v) :: rest else (k0, v0) :: pyDictInsert rest k v

/-- Python `dict(pairs)` (used for `dict(zip(columns, row))`). -/
def pyDict (ps : List (String × Value)) : List (String × Value) :=
  ps.foldl (fun d kv => pyDictInsert d kv.1 kv.2) []

/-! ### Connection manager state

`ConnState` records the whole history of driver handles: `numHandles` handles
have been created by `psycopg2.connect`, `closedFlag i` tells whether handle
`i` has been closed, and `conn` is the handle currently referenced by
`self.conn` (`Option.none` models `self.conn = None`). -/

structure ConnState where
  numHandles : Nat
  closedFlag : Nat → Bool
  conn : Option Nat

/-- The state after `__init__`: no handles, `self.conn = None`. -/
def dbInit : ConnState := ⟨0, fun _ => true, Option.none⟩

/-- Mark handle `i` as closed. -/
def setClosed (f : Nat → Bool) (i : Nat) : Nat → Bool :=
  fun j => if j = i then true else f j

/-- The close step at the top of `connect` (src/server.py lines 33-34):
`if self.conn and not self.conn.closed: self.conn.close()`.  Note that
`self.conn` keeps referencing the now-closed handle. -/
def closeCurrent (s : ConnState) : ConnState :=
  match s.conn with
  | Option.some i =>
      if s.closedFlag i = false then ⟨s.numHandles, setClosed s.closedFlag i, s.conn⟩ else s
  | Option.none => s

/-- `DatabaseConnector.connect` (src/server.py lines 25-47).  `driverOk` is
whether `psycopg2.connect` succeeds; on failure the exception is caught and
`False` is returned, with `self.conn` left referencing whatever it did after
the close step. -/
def connect (s : ConnState) (driverOk : Bool) : ConnState × Bool :=
  let s1 := closeCurrent s
  if driverOk then
    (⟨s1.numHandles + 1,
      fun j => if j = s1.numHandles then false else s1.closedFlag j,
      Option.some s1.numHandles⟩, true)
  else (s1, false)

/-- `DatabaseConnector.disconnect` (src/server.py lines 49-53):
`if self.conn and not self.conn.closed: self.conn.close(); self.conn = None`. -/
def disconnect (s : ConnState) : ConnState :=
  match s.conn with
  | Option.some i =>
      if s.closedFlag i = false then ⟨s.numHandles, setClosed s.closedFlag i, Option.none⟩
      else s
  | Option.none => s

/-- `DatabaseConnector.is_connected` (src/server.py lines 55-62):
`self.conn is not None and not self.conn.closed`. -/
def is_connected (s : ConnState) : Bool :=
  match s.conn with
  | Option.some i => !(s.closedFlag i)
  | Option.none => false

/-- Number of handles that are currently open (created and never closed). -/
def openCount (s : ConnState) : Nat :=
  (List.range s.numHandles).countP (fun i => !(s.closedFlag i))

/-- The connection-lifecycle operations a caller can perform. -/
inductive ConnOp where
  | doConnect (driverOk : Bool)
  | doDisconnect

def applyOp (s : ConnState) : ConnOp → ConnState
  | ConnOp.doConnect ok => (connect s ok).1
  | ConnOp.doDisconnect => disconnect s

def runOps : ConnState → List ConnOp → ConnState
  | s, [] => s
  | s, op :: rest => runOps (applyOp s op) rest

/-- A sample connected state: one successful `connect` from the initial state. -/
def exConn : ConnState := (connect dbInit true).1

/-! ### Configuration (`DatabaseConnector.__init__`, src/server.py lines 16-23) -/

/-- The process environment, as `os.getenv` sees it. -/
abbrev Env := String → Option String

structure DBConfig where
  host : String
  port : String
  dbname : Option String
  user : Option String
  password : Option String

/-- The connection parameters read in `__init__`:
`os.getenv("POSTGRES_HOST", "localhost")`, `os.getenv("POSTGRES_PORT", "5432")`,
`os.getenv("POSTGRES_DB")`, `os.getenv("POSTGRES_USER")`,
`os.getenv("POSTGRES_PASSWORD")`. -/
def initConnector (env : Env) : DBConfig :=
  ⟨(env "POSTGRES_HOST").getD "localhost",
   (env "POSTGRES_PORT").getD "5432",
   env "POSTGRES_DB",
   env "POSTGRES_USER",
   env "POSTGRES_PASSWORD"⟩

/-- An environment that sets the `DB_*` names the specification mentions, and
none of the `POSTGRES_*` names the code reads. -/
def envDBNames : Env := fun k =>
  if k == "DB_HOST" then Option.some "db.example.com"
  else if k == "DB_PORT" then Option.some "6000"
  else if k == "DB_NAME" then Option.some "mydb"
  else if k == "DB_USER" then Option.some "alice"
  else if k == "DB_PASSWORD" then Option.some "hunter2"
  else Option.none

/-- The empty environment. -/
def envEmpty : Env := fun _ => Option.none

/-! ### Query service operations

Each operation returns the response dictionary together with the list of
statements (text plus bind parameters) it handed to the driver. -/

/-- A statement sent to the driver: the SQL text and the bind parameters, if
any, passed alongside it. -/
structure Stmt where
  text : String
  params : Option (List Value)

/-- The driver's response to the one statement an introspection operation
executes: either the fetched rows (of the row shape `ρ` selected by that
statement) or a raised exception with its message. -/
inductive Fetch (ρ : Type) where
  | rows (rs : List ρ)
  | exn (msg : String)

/-- The driver's response in `execute_query`: the cursor description (column
names) and the fetched rows, or a raised exception. -/
inductive ExecResp where
  | ok (description : List String) (rows : List (List Value))
  | exn (msg : String)

/-- The short-circuit result when `is_connected()` is false. -/
def noConnError : Dict := [("error", Value.str "No active database connection")]

/-- The rejection result of the SELECT-only guard (src/server.py line 220). -/
def onlySelectError : Dict :=
  [("error", Value.str "Only SELECT queries are allowed for security reasons")]

/-- The statement of `get_tables` (src/server.py lines 79-84), whitespace
normalized from the triple-quoted literal. -/
def getTablesSQL : String :=
  "SELECT table_name FROM information_schema.tables WHERE table_schema = %s ORDER BY table_name"

/-- The statement of `get_table_schema` (src/server.py lines 116-121),
whitespace normalized. -/
def getTableSchemaSQL : String :=
  "SELECT column_name, data_type, is_nullable, column_default FROM information_schema.columns WHERE table_schema = %s AND table_name = %s ORDER BY ordinal_position"

/-- The base statement of `get_relationships` (src/server.py lines 155-171),
whitespace normalized. -/
def getRelationshipsBaseSQL : String :=
  "SELECT tc.constraint_name, tc.table_name as source_table, kcu.column_name as source_column, ccu.table_name as target_table, ccu.column_name as target_column FROM information_schema.table_constraints tc JOIN information_schema.key_column_usage kcu ON tc.constraint_name = kcu.constraint_name AND tc.table_schema = kcu.table_schema JOIN information_schema.constraint_column_usage ccu ON ccu.constraint_name = tc.constraint_name AND ccu.table_schema = tc.table_schema WHERE tc.constraint_type = \x27FOREIGN KEY\x27 AND tc.table_schema = %s"

/-- Python truthiness of the optional `table_name : str = None` argument:
`None` and the empty string are falsy. -/
def pyTruthyStr : Option String → Bool
  | Option.some t => !(t == "")
  | Option.none => false

/-- The statement text of `get_relationships` after the conditional
`query += " AND tc.table_name = %s"` (src/server.py lines 175-176). -/
def getRelationshipsSQL (table_name : Option String) : String :=
  if pyTruthyStr table_name then getRelationshipsBaseSQL ++ " AND tc.table_name = %s"
  else getRelationshipsBaseSQL

/-- `DatabaseConnector.get_tables` (src/server.py lines 64-98).  The row shape
of its statement is a single column `table_name`, so the driver rows are
strings. -/
def get_tables (s : ConnState) (fetch : Fetch String) (schema_name : String) :
    Dict × List Stmt :=
  if !(is_connected s) then (noConnError, [])
  else
    let sent : List Stmt := [⟨getTablesSQL, Option.some [Value.str schema_name]⟩]
    match fetch with
    | Fetch.rows rs =>
        ([("schema", Value.str schema_name),
          ("tables", Value.list (rs.map Value.str)),
          ("count", Value.int (rs.length : Int))], sent)
    | Fetch.exn msg =>
        ([("error", Value.str ("Error fetching tables: " ++ msg))], sent)

/-- One row of the `get_table_schema` statement. -/
structure ColumnRow where
  column_name : String
  data_type : String
  is_nullable : String
  column_default : Value

/-- `dict(row)` for a `get_table_schema` row. -/
def columnRowDict (r : ColumnRow) : Value :=
  Value.dict [("column_name", Value.str r.column_name),
              ("data_type", Value.str r.data_type),
              ("is_nullable", Value.str r.is_nullable),
              ("column_default", r.column_default)]

/-- `DatabaseConnector.get_table_schema` (src/server.py lines 100-136). -/
def get_table_schema (s : ConnState) (fetch : Fetch ColumnRow)
    (table_name : String) (schema_name : String) : Dict × List Stmt :=
  if !(is_connected s) then (noConnError, [])
  else
    let sent : List Stmt :=
      [⟨getTableSchemaSQL, Option.some [Value.str schema_name, Value.str table_name]⟩]
    match fetch with
    | Fetch.rows rs =>
        ([("schema", Value.str schema_name),
          ("table", Value.str table_name),
          ("columns", Value.list (rs.map columnRowDict)),
          ("count", Value.int (rs.length : Int))], sent)
    | Fetch.exn msg =>
        ([("error", Value.str ("Error fetching table schema: " ++ msg))], sent)

/-- One row of the `get_relationships` statement. -/
structure RelRow where
  constraint_name : String
  source_table : String
  source_column : String
  target_table : String
  target_column : String

/-- The per-row dictionary built in the loop of `get_relationships`
(src/server.py lines 182-189). -/
def relRowDict (r : RelRow) : Value :=
  Value.dict [("constraint_name", Value.str r.constraint_name),
              ("source_table", Value.str r.source_table),
              ("source_column", Value.str r.source_column),
              ("target_table", Value.str r.target_table),
              ("target_column", Value.str r.target_column)]

/-- `DatabaseConnector.get_relationships` (src/server.py lines 138-203). -/
def get_relationships (s : ConnState) (fetch : Fetch RelRow)
    (schema_name : String) (table_name : Option String) : Dict × List Stmt :=
  if !(is_connected s) then (noConnError, [])
  else
    let query := getRelationshipsSQL table_name
    let ps := if pyTruthyStr table_name
              then [Value.str schema_name, Value.str (table_name.getD "")]
              else [Value.str schema_name]
    let sent : List Stmt := [⟨query, Option.some ps⟩]
    match fetch with
    | Fetch.rows rs =>
        ([("schema", Value.str schema_name),
          ("table", Value.str (if pyTruthyStr table_name then table_name.getD "" else "all")),
          ("relationships", Value.list (rs.map relRowDict)),
          ("count", Value.int (rs.length : Int))], sent)
    | Fetch.exn msg =>
        ([("error", Value.str ("Error fetching relationships: " ++ msg))], sent)

/-- The argument actually given to `cursor.execute` for the user parameters:
`if params: cursor.execute(query, params) else: cursor.execute(query)`
(src/server.py lines 225-228), so `None` and `[]` both mean "no parameters". -/
def pyParamsArg (params : Option (List Value)) : Option (List Value) :=
  match params with
  | Option.some l => if l.isEmpty then Option.none else Option.some l
  | Option.none => Option.none

/-- `DatabaseConnector.execute_query` (src/server.py lines 205-246). -/
def execute_query (s : ConnState) (resp : ExecResp) (query : String)
    (params : Option (List Value)) : Dict × List Stmt :=
  if !(is_connected s) then (noConnError, [])
  else if !(selectGuard query) then (onlySelectError, [])
  else
    let sent : List Stmt := [⟨query, pyParamsArg params⟩]
    match resp with
    | ExecResp.ok description rows =>
        let columns := description
        let results := rows.map (fun row => Value.dict (pyDict (pyZip columns row)))
        ([("columns", Value.list (columns.map Value.str)),
          ("rows", Value.list results),
          ("row_count", Value.int (results.length : Int))], sent)
    | ExecResp.exn msg =>
        ([("error", Value.str ("Error executing query: " ++ msg))], sent)

/-! ### A model database catalog, for the semantics of the `get_tables`
statement.  The DBMS is outside the repository; `tablesQueryRows` interprets
the fixed statement `getTablesSQL` under standard SQL semantics over a catalog:
filter `information_schema.tables` rows by `table_schema = %s`, project
`table_name`, sort ascending (`ORDER BY table_name`). -/

/-- Lexicographic comparison of character lists, the ascending text order used
to model `ORDER BY table_name`. -/
def charListLe : List Char → List Char → Bool
  | [], _ => true
  | _ :: _, [] => false
  | a :: as, b :: bs => if a = b then charListLe as bs else decide (a < b)

/-- Ascending text order on names. -/
def strLe (a b : String) : Bool := charListLe a.toList b.toList

/-- The database catalog: the (schema, table name) pairs that exist. -/
structure Catalog where
  tables : List (String × String)

/-- The rows the DBMS returns for `getTablesSQL` bound to `schema_name`:
the names of the catalog's tables in that schema, in ascending name order. -/
def tablesQueryRows (db : Catalog) (schema_name : String) : List String :=
  List.insertionSort (fun a b => strLe a b = true)
    ((db.tables.filter (fun p => p.1 == schema_name)).map Prod.snd)

/-- A sample catalog with tables `a`, `b` in schema `public`. -/
def exCatalog : Catalog := ⟨[("public", "b"), ("other", "z"), ("public", "a")]⟩

/-- A response is an error iff its only key is `"error"`; it is a payload iff
it has no `"error"` key. -/
def errorOrPayload (d : Dict) : Prop :=
  dictKeys d = ["error"] ∨ "error" ∉ dictKeys d

/-! ### Helper lemmas: the handle invariant of the connection manager -/

/-- Every handle except possibly the one referenced by `self.conn` is closed,
and `self.conn` only references handles that exist. -/
def HandleInv (s : ConnState) : Prop :=
  (∀ j, j < s.numHandles → s.closedFlag j = false → s.conn = Option.some j)
  ∧ (∀ j, s.conn = Option.some j → j < s.numHandles)

theorem eq_true_of_ne_false {b : Bool} (h : ¬ b = false) : b = true := by
  cases b
  · exact absurd rfl h
  · rfl

theorem handleInv_dbInit : HandleInv dbInit :=
  ⟨fun j hj _ => absurd hj (by simp [dbInit]), fun j hj => by simp [dbInit] at hj⟩

theorem closeCurrent_numHandles (s : ConnState) :
    (closeCurrent s).numHandles = s.numHandles := by
  obtain ⟨n, f, c⟩ := s
  cases c with
  | none => rfl
  | some i => by_cases h : f i = false <;> simp [closeCurrent, h]

theorem closeCurrent_conn (s : ConnState) : (closeCurrent s).conn = s.conn := by
  obtain ⟨n, f, c⟩ := s
  cases c with
  | none => rfl
  | some i => by_cases h : f i = false <;> simp [closeCurrent, h]

theorem closeCurrent_allClosed (s : ConnState) (h : HandleInv s) :
    ∀ j, j < s.numHandles → (closeCurrent s).closedFlag j = true := by
  obtain ⟨n, f, c⟩ := s
  intro j hj
  cases c with
  | none =>
      cases hfv : f j with
      | true => simpa [closeCurrent] using hfv
      | false => exact Option.noConfusion (h.1 j hj hfv)
  | some i =>
      by_cases hi : f i = false
      · have hd : closeCurrent ⟨n, f, Option.some i⟩
            = ⟨n, setClosed f i, Option.some i⟩ := by
          simp [closeCurrent, hi]
        rw [hd]
        show setClosed f i j = true
        unfold setClosed
        rcases eq_or_ne j i with hji | hji
        · rw [if_pos hji]
        · rw [if_neg hji]
          cases hfv : f j with
          | true => rfl
          | false => exact absurd (Option.some.inj (h.1 j hj hfv)).symm hji
      · have hd : closeCurrent ⟨n, f, Option.some i⟩ = ⟨n, f, Option.some i⟩ := by
          simp [closeCurrent, hi]
        rw [hd]
        show f j = true
        cases hfv : f j with
        | true => rfl
        | false =>
            have hij := Option.some.inj (h.1 j hj hfv)
            have hit : f i = true := eq_true_of_ne_false hi
            rw [hij] at hit
            rw [hfv] at hit
            exact hit

theorem handleInv_closeCurrent (s : ConnState) (h : HandleInv s) :
    HandleInv (closeCurrent s) := by
  constructor
  · intro j hj hf
    rw [closeCurrent_numHandles] at hj
    have := closeCurrent_allClosed s h j hj
    rw [hf] at this
    exact Bool.noConfusion this
  · intro j hj
    rw [closeCurrent_conn] at hj
    rw [closeCurrent_numHandles]
    exact h.2 j hj

theorem handleInv_connect (s : ConnState) (ok : Bool) (h : HandleInv s) :
    HandleInv (connect s ok).1 := by
  unfold connect
  cases ok with
  | false =>
      simp only [if_false]
      exact handleInv_closeCurrent s h
  | true =>
      simp only [if_true]
      constructor
      · intro j hj hf
        simp only at hf ⊢
        by_cases hje : j = (closeCurrent s).numHandles
        · simp [hje]
        · rw [if_neg hje] at hf
          simp only at hj
          have hjlt : j < (closeCurrent s).numHandles := by omega
          rw [closeCurrent_numHandles] at hjlt
          have := closeCurrent_allClosed s h j hjlt
          rw [hf] at this
          exact Bool.noConfusion this
      · intro j hj
        simp only at hj ⊢
        have := Option.some.inj hj
        omega

theorem handleInv_disconnect (s : ConnState) (h : HandleInv s) :
    HandleInv (disconnect s) := by
  obtain ⟨n, f, c⟩ := s
  cases c with
  | none => exact h
  | some i =>
      by_cases hi : f i = false
      · have hd : disconnect ⟨n, f, Option.some i⟩
            = ⟨n, setClosed f i, Option.none⟩ := by
          simp [disconnect, hi]
        rw [hd]
        constructor
        · intro j hj hf
          have hf' : (if j = i then true else f j) = false := hf
          rcases eq_or_ne j i with hji | hji
          · rw [if_pos hji] at hf'
            exact Bool.noConfusion hf'
          · rw [if_neg hji] at hf'
            exact absurd (Option.some.inj (h.1 j hj hf')).symm hji
        · intro j hj
          exact Option.noConfusion hj
      · have hd : disconnect ⟨n, f, Option.some i⟩ = ⟨n, f, Option.some i⟩ := by
          simp [disconnect, hi]
        rw [hd]
        exact h

theorem handleInv_runOps (s : ConnState) (h : HandleInv s) (ops : List ConnOp) :
    HandleInv (runOps s ops) := by
  induction ops generalizing s with
  | nil => exact h
  | cons op rest ih =>
      cases op with
      | doConnect ok => exact ih _ (handleInv_connect s ok h)
      | doDisconnect => exact ih _ (handleInv_disconnect s h)

/-! ### Helper lemmas: counting open handles -/

theorem countP_range_le_one (p : Nat → Bool) (n k : Nat)
    (h : ∀ i, i < n → p i = true → i = k) :
    (List.range n).countP p ≤ 1 := by
  induction n with
  | zero => simp
  | succ m ih =>
      rw [List.range_succ, List.countP_append]
      by_cases hm : p m = true
      · have hz : (List.range m).countP p = 0 := by
          rw [List.countP_eq_zero]
          intro a ha hpa
          have ham : a < m := List.mem_range.mp ha
          have := h a (by omega) hpa
          have := h m (by omega) hm
          omega
        rw [hz]
        simp [List.countP_cons, hm]
      · have hle := ih (fun i hi hp => h i (by omega) hp)
        have : ([m].countP p) = 0 := by
          rw [List.countP_eq_zero]
          intro a ha hpa
          simp at ha
          rw [ha] at hpa
          exact hm hpa
        omega

theorem countP_range_eq_one (p : Nat → Bool) (n k : Nat) (hk : k < n)
    (hpk : p k = true) (h : ∀ i, i < n → p i = true → i = k) :
    (List.range n).countP p = 1 := by
  induction n with
  | zero => omega
  | succ m ih =>
      rw [List.range_succ, List.countP_append]
      by_cases hkm : k = m
      · have hz : (List.range m).countP p = 0 := by
          rw [List.countP_eq_zero]
          intro a ha hpa
          have ham : a < m := List.mem_range.mp ha
          have := h a (by omega) hpa
          omega
        rw [hz]
        rw [hkm] at hpk
        simp [List.countP_cons, hpk]
      · have hkm' : k < m := by omega
        have h1 := ih hkm' (fun i hi hp => h i (by omega) hp)
        have hpm : p m = false := by
          cases hv : p m with
          | false => rfl
          | true => exact absurd (h m (by omega) hv) (by omega)
        rw [h1]
        simp [List.countP_cons, hpm]

theorem openCount_le_one_of_inv (s : ConnState) (h : HandleInv s) :
    openCount s ≤ 1 := by
  unfold openCount
  cases hc : s.conn with
  | some k =>
      apply countP_range_le_one _ _ k
      intro i hi hp
      have hf : s.closedFlag i = false := by
        cases hv : s.closedFlag i with
        | false => rfl
        | true => rw [hv] at hp; exact Bool.noConfusion hp
      have := h.1 i hi hf
      rw [hc] at this
      exact (Option.some.inj this).symm
  | none =>
      apply countP_range_le_one _ _ 0
      intro i hi hp
      have hf : s.closedFlag i = false := by
        cases hv : s.closedFlag i with
        | false => rfl
        | true => rw [hv] at hp; exact Bool.noConfusion hp
      have := h.1 i hi hf
      rw [hc] at this
      exact Option.noConfusion this

theorem openCount_eq_one_of_connected (s : ConnState) (h : HandleInv s)
    (hc : is_connected s = true) : openCount s = 1 := by
  unfold is_connected at hc
  unfold openCount
  cases hcn : s.conn with
  | none => rw [hcn] at hc; exact Bool.noConfusion hc
  | some k =>
      rw [hcn] at hc
      simp only at hc
      have hk : s.closedFlag k = false := by
        cases hv : s.closedFlag k with
        | false => rfl
        | true => rw [hv] at hc; exact Bool.noConfusion hc
      apply countP_range_eq_one _ _ k (h.2 k hcn)
      · rw [hk]; rfl
      · intro i hi hp
        have hf : s.closedFlag i = false := by
          cases hv : s.closedFlag i with
          | false => rfl
          | true => rw [hv] at hp; exact Bool.noConfusion hp
        have := h.1 i hi hf
        rw [hcn] at this
        exact (Option.some.inj this).symm

/-! ### Helper lemmas: the text order used to model `ORDER BY` -/

theorem charListLe_total : ∀ (x y : List Char),
    charListLe x y = true ∨ charListLe y x = true
  | [], _ => Or.inl rfl
  | _ :: _, [] => Or.inr rfl
  | a :: as, b :: bs => by
      simp only [charListLe]
      by_cases hab : a = b
      · rw [hab, if_pos rfl, if_pos rfl]
        exact charListLe_total as bs
      · rcases lt_or_gt_of_ne hab with h | h
        · left; rw [if_neg hab]; exact decide_eq_true h
        · right; rw [if_neg (Ne.symm hab)]; exact decide_eq_true h

theorem charListLe_trans : ∀ (x y z : List Char),
    charListLe x y = true → charListLe y z = true → charListLe x z = true
  | [], _, _, _, _ => rfl
  | _ :: _, [], _, h1, _ => by simp [charListLe] at h1
  | _ :: _, _ :: _, [], _, h2 => by simp [charListLe] at h2
  | a :: as, b :: bs, c :: cs, h1, h2 => by
      simp only [charListLe] at h1 h2 ⊢
      by_cases hab : a = b
      · subst hab
        rw [if_pos rfl] at h1
        by_cases hac : a = c
        · rw [if_pos hac] at h2
          rw [if_pos hac]
          exact charListLe_trans as bs cs h1 h2
        · rw [if_neg hac] at h2
          rw [if_neg hac]
          exact h2
      · rw [if_neg hab] at h1
        have hltab : a < b := of_decide_eq_true h1
        by_cases hbc : b = c
        · rw [← hbc, if_neg hab]
          exact h1
        · rw [if_neg hbc] at h2
          have hltbc : b < c := of_decide_eq_true h2
          have hltac : a < c := lt_trans hltab hltbc
          rw [if_neg (ne_of_lt hltac)]
          exact decide_eq_true hltac

instance strLeIsTotal : IsTotal String (fun a b => strLe a b = true) :=
  ⟨fun a b => charListLe_total a.toList b.toList⟩

instance strLeIsTrans : IsTrans String (fun a b => strLe a b = true) :=
  ⟨fun a b c h1 h2 => charListLe_trans a.toList b.toList c.toList h1 h2⟩

/-! ### Claim theorems -/

/-- C1: invoked while connected, `execute_query` returns the fixed rejection
dictionary and sends nothing to the driver whenever the stripped, lowercased
query text does not start with `select`; whenever it does start with `select`,
the guard does not reject it and the statement is handed to the driver. -/
theorem execute_query_select_guard (s : ConnState) (resp : ExecResp) (q : String)
    (ps : Option (List Value)) (hconn : is_connected s = true) :
    (selectGuard q = false → execute_query s resp q ps = (onlySelectError, []))
  ∧ (selectGuard q = true → (execute_query s resp q ps).2 = [⟨q, pyParamsArg ps⟩]) := by
  constructor
  · intro hg
    simp [execute_query, hconn, hg]
  · intro hg
    cases resp <;> simp [execute_query, hconn, hg]

/-- C1 witness: the guard's behaviour on the spec's concrete examples, from a
connected state. -/
theorem execute_query_select_guard_witness :
    (execute_query exConn (ExecResp.ok ["x"] [[Value.int 1]]) "DELETE FROM x"
        Option.none = (onlySelectError, []))
  ∧ (execute_query exConn (ExecResp.ok ["x"] [[Value.int 1]]) "  Drop table x"
        Option.none = (onlySelectError, []))
  ∧ (execute_query exConn (ExecResp.ok ["x"] [[Value.int 1]]) ""
        Option.none = (onlySelectError, []))
  ∧ ((execute_query exConn (ExecResp.ok ["x"] [[Value.int 1]]) "SELECT 1"
        Option.none).2 = [⟨"SELECT 1", Option.none⟩])
  ∧ ((execute_query exConn (ExecResp.ok ["x"] [[Value.int 1]]) "select * from t"
        Option.none).2 = [⟨"select * from t", Option.none⟩]) :=
  ⟨(execute_query_select_guard exConn (ExecResp.ok ["x"] [[Value.int 1]])
      "DELETE FROM x" Option.none (by decide)).1 (by decide),
   (execute_query_select_guard exConn (ExecResp.ok ["x"] [[Value.int 1]])
      "  Drop table x" Option.none (by decide)).1 (by decide),
   (execute_query_select_guard exConn (ExecResp.ok ["x"] [[Value.int 1]])
      "" Option.none (by decide)).1 (by decide),
   (execute_query_select_guard exConn (ExecResp.ok ["x"] [[Value.int 1]])
      "SELECT 1" Option.none (by decide)).2 (by decide),
   (execute_query_select_guard exConn (ExecResp.ok ["x"] [[Value.int 1]])
      "select * from t" Option.none (by decide)).2 (by decide)⟩

/-- C2: whenever `is_connected()` is false, each of the four operations
returns exactly the dictionary `\x7berror: "No active database connection"\x7d`
and sends no statement to the driver, for every argument value and every
driver oracle. -/
theorem no_connection_short_circuit (s : ConnState) (h : is_connected s = false) :
    (∀ fetch schema_name, get_tables s fetch schema_name = (noConnError, []))
  ∧ (∀ fetch table_name schema_name,
       get_table_schema s fetch table_name schema_name = (noConnError, []))
  ∧ (∀ fetch schema_name table_name,
       get_relationships s fetch schema_name table_name = (noConnError, []))
  ∧ (∀ resp query params, execute_query s resp query params = (noConnError, [])) := by
  refine ⟨?_, ?_, ?_, ?_⟩ <;> intros <;>
    simp [get_tables, get_table_schema, get_relationships, execute_query, h]

/-- C2 witness: the disconnected initial state short-circuits `get_tables`. -/
theorem no_connection_short_circuit_witness :
    get_tables dbInit (Fetch.rows ["a"]) "public" = (noConnError, []) :=
  (no_connection_short_circuit dbInit (by decide)).1 (Fetch.rows ["a"]) "public"

/-- C3: when the driver raises during execution, every operation returns the
dictionary `\x7berror: message\x7d` built from the caught exception instead of
propagating it (the operations are total functions into response values).  The
operations take the connection state read-only, mirroring that the source never
assigns `self.conn` in them, so the handle afterwards is the handle before;
in particular the same still-connected state keeps routing subsequent
operations to the driver rather than short-circuiting. -/
theorem driver_errors_are_values (s : ConnState) (hconn : is_connected s = true)
    (msg : String) :
    (∀ schema_name, (get_tables s (Fetch.exn msg) schema_name).1
        = [("error", Value.str ("Error fetching tables: " ++ msg))])
  ∧ (∀ table_name schema_name,
       (get_table_schema s (Fetch.exn msg) table_name schema_name).1
         = [("error", Value.str ("Error fetching table schema: " ++ msg))])
  ∧ (∀ schema_name table_name,
       (get_relationships s (Fetch.exn msg) schema_name table_name).1
         = [("error", Value.str ("Error fetching relationships: " ++ msg))])
  ∧ (∀ query params, selectGuard query = true →
       (execute_query s (ExecResp.exn msg) query params).1
         = [("error", Value.str ("Error executing query: " ++ msg))])
  ∧ (∀ fetch schema_name, (get_tables s fetch schema_name).2
        = [⟨getTablesSQL, Option.some [Value.str schema_name]⟩]) := by
  refine ⟨?_, ?_, ?_, ?_, ?_⟩
  · intro sn
    simp [get_tables, hconn]
  · intro tn sn
    simp [get_table_schema, hconn]
  · intro sn tn
    simp [get_relationships, hconn]
  · intro q p hg
    simp [execute_query, hconn, hg]
  · intro fetch sn
    cases fetch <;> simp [get_tables, hconn]

/-- C3 witness: a driver exception in `get_tables` from a connected state. -/
theorem driver_errors_are_values_witness :
    (get_tables exConn (Fetch.exn "boom") "public").1
      = [("error", Value.str ("Error fetching tables: " ++ "boom"))] :=
  (driver_errors_are_values exConn (by decide) "boom").1 "public"

/-- C6: every response of the four operations either has `"error"` as its sole
key or has no `"error"` key at all, for every input, driver oracle, and
connection state. -/
theorem error_xor_payload (s : ConnState) :
    (∀ fetch schema_name, errorOrPayload (get_tables s fetch schema_name).1)
  ∧ (∀ fetch table_name schema_name,
       errorOrPayload (get_table_schema s fetch table_name schema_name).1)
  ∧ (∀ fetch schema_name table_name,
       errorOrPayload (get_relationships s fetch schema_name table_name).1)
  ∧ (∀ resp query params, errorOrPayload (execute_query s resp query params).1) := by
  refine ⟨?_, ?_, ?_, ?_⟩
  · intro fetch sn
    unfold errorOrPayload dictKeys
    cases hc : is_connected s with
    | false => left; simp [get_tables, hc, noConnError]
    | true =>
        cases fetch with
        | rows rs => right; simp [get_tables, hc]
        | exn m => left; simp [get_tables, hc]
  · intro fetch tn sn
    unfold errorOrPayload dictKeys
    cases hc : is_connected s with
    | false => left; simp [get_table_schema, hc, noConnError]
    | true =>
        cases fetch with
        | rows rs => right; simp [get_table_schema, hc]
        | exn m => left; simp [get_table_schema, hc]
  · intro fetch sn tn
    unfold errorOrPayload dictKeys
    cases hc : is_connected s with
    | false => left; simp [get_relationships, hc, noConnError]
    | true =>
        cases fetch with
        | rows rs => right; simp [get_relationships, hc]
        | exn m => left; simp [get_relationships, hc]
  · intro resp q p
    unfold errorOrPayload dictKeys
    cases hc : is_connected s with
    | false => left; simp [execute_query, hc, noConnError]
    | true =>
        cases hg : selectGuard q with
        | false => left; simp [execute_query, hc, hg, onlySelectError]
        | true =>
            cases resp with
            | ok d r => right; simp [execute_query, hc, hg]
            | exn m => left; simp [execute_query, hc, hg]

/-- C9: `disconnect` is idempotent, and after it `is_connected()` is false,
from every starting state. -/
theorem disconnect_idempotent :
    (∀ s : ConnState, disconnect (disconnect s) = disconnect s)
  ∧ (∀ s : ConnState, is_connected (disconnect s) = false) := by
  constructor
  · intro s
    obtain ⟨n, f, c⟩ := s
    cases c with
    | none => rfl
    | some i =>
        by_cases hi : f i = false
        · have hd : disconnect ⟨n, f, Option.some i⟩
              = ⟨n, setClosed f i, Option.none⟩ := by
            simp [disconnect, hi]
          rw [hd]
          rfl
        · have hd : disconnect ⟨n, f, Option.some i⟩ = ⟨n, f, Option.some i⟩ := by
            simp [disconnect, hi]
          rw [hd]
          exact hd
  · intro s
    obtain ⟨n, f, c⟩ := s
    cases c with
    | none => rfl
    | some i =>
        by_cases hi : f i = false
        · have hd : disconnect ⟨n, f, Option.some i⟩
              = ⟨n, setClosed f i, Option.none⟩ := by
            simp [disconnect, hi]
          rw [hd]
          rfl
        · have hd : disconnect ⟨n, f, Option.some i⟩ = ⟨n, f, Option.some i⟩ := by
            simp [disconnect, hi]
          rw [hd]
          have hit : f i = true := eq_true_of_ne_false hi
          simp [is_connected, hit]

/-- C10: `get_relationships` with `table_name = ""` behaves exactly as with
`table_name = None`: the whole result (response and sent statement) is
identical, the per-table filter clause is not appended to the statement text,
and the response reports `table` as `"all"`. -/
theorem relationships_empty_table_name :
    (∀ s fetch schema_name,
       get_relationships s fetch schema_name (Option.some "")
         = get_relationships s fetch schema_name Option.none)
  ∧ getRelationshipsSQL (Option.some "") = getRelationshipsBaseSQL
  ∧ (∀ rs schema_name,
       ((get_relationships exConn (Fetch.rows rs) schema_name
           (Option.some "")).1).lookup "table" = Option.some (Value.str "all")) := by
  refine ⟨?_, ?_, ?_⟩
  · intro s fetch sn
    simp [get_relationships, getRelationshipsSQL, pyTruthyStr]
  · simp [getRelationshipsSQL, pyTruthyStr]
  · intro rs sn
    rfl

set_option maxRecDepth 8192 in
/-- C4 counterexample: two connected invocations of `get_relationships` that
differ only in the value of `table_name` — both present (`Option.some`), one
the empty string, one `"x"` — send different statement texts, because the
source tests `if table_name:` (Python truthiness), not presence.  So the
claim's "statement text is identical whenever `table_name`'s presence/absence
is held fixed" fails. -/
theorem introspection_stmt_text_cex :
    ((get_relationships exConn (Fetch.rows []) "public" (Option.some "")).2.map Stmt.text)
      ≠ ((get_relationships exConn (Fetch.rows []) "public" (Option.some "x")).2.map Stmt.text) := by
  decide

/-- C4 amended: for the three introspection operations the statement text sent
to the driver is independent of the caller-supplied `schema_name` and
`table_name` values: any two invocations differing only in those values, with
the truthiness of `table_name` (non-`None` and non-empty) held fixed, send
identical statement texts; the values travel only as bind parameters. -/
theorem introspection_stmt_text_value_independent
    (s : ConnState) (f1 f2 : Fetch String) (g1 g2 : Fetch ColumnRow)
    (r1 r2 : Fetch RelRow) (sn sn2 tn tn2 : String) (ot ot2 : Option String)
    (htr : pyTruthyStr ot = pyTruthyStr ot2) :
    (get_tables s f1 sn).2.map Stmt.text = (get_tables s f2 sn2).2.map Stmt.text
  ∧ (get_table_schema s g1 tn sn).2.map Stmt.text
      = (get_table_schema s g2 tn2 sn2).2.map Stmt.text
  ∧ (get_relationships s r1 sn ot).2.map Stmt.text
      = (get_relationships s r2 sn2 ot2).2.map Stmt.text := by
  cases hc : is_connected s with
  | false =>
      refine ⟨?_, ?_, ?_⟩ <;>
        simp [get_tables, get_table_schema, get_relationships, hc]
  | true =>
      refine ⟨?_, ?_, ?_⟩
      · cases f1 <;> cases f2 <;> simp [get_tables, hc]
      · cases g1 <;> cases g2 <;> simp [get_table_schema, hc]
      · cases r1 <;> cases r2 <;>
          simp [get_relationships, hc, getRelationshipsSQL, htr]

/-- C4 witness: concrete invocations differing in schema and (truthy) table
values send identical statement texts. -/
theorem introspection_stmt_text_value_independent_witness :
    (get_tables exConn (Fetch.rows []) "public").2.map Stmt.text
      = (get_tables exConn (Fetch.rows ["a"]) "other").2.map Stmt.text
  ∧ (get_table_schema exConn (Fetch.rows []) "t1" "public").2.map Stmt.text
      = (get_table_schema exConn (Fetch.rows []) "t2" "other").2.map Stmt.text
  ∧ (get_relationships exConn (Fetch.rows []) "public" (Option.some "t1")).2.map Stmt.text
      = (get_relationships exConn (Fetch.rows []) "other" (Option.some "t2")).2.map Stmt.text :=
  introspection_stmt_text_value_independent exConn (Fetch.rows []) (Fetch.rows ["a"])
    (Fetch.rows []) (Fetch.rows []) (Fetch.rows []) (Fetch.rows [])
    "public" "other" "t1" "t2" (Option.some "t1") (Option.some "t2") (by decide)

/-- The state `connect` produces on driver success, spelled out. -/
theorem connect_success_shape (s : ConnState) :
    (connect s true).1
      = ⟨(closeCurrent s).numHandles + 1,
         fun j => if j = (closeCurrent s).numHandles then false
                  else (closeCurrent s).closedFlag j,
         Option.some (closeCurrent s).numHandles⟩ := rfl

theorem is_connected_after_connect (s : ConnState) :
    is_connected (connect s true).1 = true := by
  rw [connect_success_shape]
  simp [is_connected]

/-- C5: over every sequence of `connect`/`disconnect` calls from the initial
state at most one open handle exists; `connect` reports the driver outcome as
its boolean result (false on driver failure, never an exception); and calling
`connect` twice successfully leaves exactly one open handle, the handle of the
first call being closed and no longer the referenced one. -/
theorem connect_lifecycle (ops : List ConnOp) :
    openCount (runOps dbInit ops) ≤ 1
  ∧ (∀ s : ConnState, (connect s false).2 = false)
  ∧ (∀ s : ConnState, (connect s true).2 = true)
  ∧ (∃ i : Nat,
       (connect (runOps dbInit ops) true).1.conn = Option.some i
     ∧ is_connected (connect (runOps dbInit ops) true).1 = true
     ∧ openCount (connect (runOps dbInit ops) true).1 = 1
     ∧ (connect (connect (runOps dbInit ops) true).1 true).1.closedFlag i = true
     ∧ (connect (connect (runOps dbInit ops) true).1 true).1.conn ≠ Option.some i
     ∧ openCount (connect (connect (runOps dbInit ops) true).1 true).1 = 1) := by
  have hinv : HandleInv (runOps dbInit ops) :=
    handleInv_runOps dbInit handleInv_dbInit ops
  set s := runOps dbInit ops with hs
  refine ⟨openCount_le_one_of_inv s hinv, fun t => rfl, fun t => rfl, ?_⟩
  set m := (closeCurrent s).numHandles with hm
  set X := (connect s true).1 with hX
  have hinvX : HandleInv X := handleInv_connect s true hinv
  have hXshape : X = ⟨m + 1,
      fun j => if j = m then false else (closeCurrent s).closedFlag j,
      Option.some m⟩ := connect_success_shape s
  have hXconn : X.conn = Option.some m := by rw [hXshape]
  have hXflag : X.closedFlag m = false := by rw [hXshape]; simp
  have hXnum : X.numHandles = m + 1 := by rw [hXshape]
  have hccX : closeCurrent X = ⟨X.numHandles, setClosed X.closedFlag m, X.conn⟩ := by
    unfold closeCurrent
    rw [hXconn]
    show (if X.closedFlag m = false then
            (⟨X.numHandles, setClosed X.closedFlag m, Option.some m⟩ : ConnState)
          else X) = ⟨X.numHandles, setClosed X.closedFlag m, Option.some m⟩
    rw [if_pos hXflag]
  have hccXnum : (closeCurrent X).numHandles = m + 1 := by rw [hccX, hXnum]
  refine ⟨m, hXconn, is_connected_after_connect s, ?_, ?_, ?_, ?_⟩
  · exact openCount_eq_one_of_connected X hinvX (is_connected_after_connect s)
  · rw [connect_success_shape X]
    show (if m = (closeCurrent X).numHandles then false
          else (closeCurrent X).closedFlag m) = true
    rw [hccXnum, if_neg (by omega)]
    rw [hccX]
    show setClosed X.closedFlag m m = true
    unfold setClosed
    rw [if_pos rfl]
  · rw [connect_success_shape X, hccXnum]
    intro hcontr
    have : m + 1 = m := Option.some.inj hcontr
    omega
  · exact openCount_eq_one_of_connected _ (handleInv_connect X true hinvX)
      (is_connected_after_connect X)

/-- C7: while connected, `get_tables` on the rows the DBMS returns for its
fixed statement over a catalog yields exactly the dictionary
`\x7bschema, tables, count\x7d` whose `tables` are the catalog's table names
for that schema in ascending name order and whose `count` is the length of
that list. -/
theorem get_tables_sorted_catalog (s : ConnState) (db : Catalog)
    (schema_name : String) (hconn : is_connected s = true) :
    (get_tables s (Fetch.rows (tablesQueryRows db schema_name)) schema_name).1
      = [("schema", Value.str schema_name),
         ("tables", Value.list ((tablesQueryRows db schema_name).map Value.str)),
         ("count", Value.int ((tablesQueryRows db schema_name).length : Int))]
  ∧ List.Sorted (fun a b => strLe a b = true) (tablesQueryRows db schema_name)
  ∧ (tablesQueryRows db schema_name).Perm
      ((db.tables.filter (fun p => p.1 == schema_name)).map Prod.snd) := by
  refine ⟨by simp [get_tables, hconn], ?_, ?_⟩
  · unfold tablesQueryRows
    exact List.sorted_insertionSort _ _
  · unfold tablesQueryRows
    exact List.perm_insertionSort _ _

/-- C7 witness: the spec's example, a catalog whose `public` schema holds
tables `a`, `b` (plus a table in another schema), from a connected state. -/
theorem get_tables_sorted_catalog_witness :
    ((get_tables exConn (Fetch.rows (tablesQueryRows exCatalog "public")) "public").1
       = [("schema", Value.str "public"),
          ("tables", Value.list ((tablesQueryRows exCatalog "public").map Value.str)),
          ("count", Value.int ((tablesQueryRows exCatalog "public").length : Int))]
     ∧ List.Sorted (fun a b => strLe a b = true) (tablesQueryRows exCatalog "public")
     ∧ (tablesQueryRows exCatalog "public").Perm
         ((exCatalog.tables.filter (fun p => p.1 == "public")).map Prod.snd))
  ∧ tablesQueryRows exCatalog "public" = ["a", "b"] :=
  ⟨get_tables_sorted_catalog exConn exCatalog "public" (by decide), by decide⟩

/-- C8 counterexample: in an environment where `DB_HOST`, `DB_PORT`,
`DB_NAME`, `DB_USER`, `DB_PASSWORD` are all set and no `POSTGRES_*` variable
is, the constructor ignores them entirely: the host and port fall back to
their defaults and name/user/password come out unset, refuting the claim that
the configuration is read from the `DB_*` names. -/
theorem config_env_names_cex :
    (initConnector envDBNames).host = "localhost"
  ∧ (initConnector envDBNames).port = "5432"
  ∧ (initConnector envDBNames).dbname = Option.none
  ∧ (initConnector envDBNames).user = Option.none
  ∧ (initConnector envDBNames).password = Option.none := by
  refine ⟨rfl, rfl, rfl, rfl, rfl⟩

/-- C8 amended: the connection configuration is read once at startup from the
environment variables `POSTGRES_HOST` (default `"localhost"`), `POSTGRES_PORT`
(default `"5432"`), `POSTGRES_DB`, `POSTGRES_USER`, `POSTGRES_PASSWORD`; no
other variable influences it, and absence of name/user/password is passed
through unvalidated. -/
theorem config_env_reads (env env2 : Env)
    (hH : env "POSTGRES_HOST" = env2 "POSTGRES_HOST")
    (hP : env "POSTGRES_PORT" = env2 "POSTGRES_PORT")
    (hD : env "POSTGRES_DB" = env2 "POSTGRES_DB")
    (hU : env "POSTGRES_USER" = env2 "POSTGRES_USER")
    (hW : env "POSTGRES_PASSWORD" = env2 "POSTGRES_PASSWORD") :
    initConnector env = initConnector env2
  ∧ (env "POSTGRES_HOST" = Option.none → (initConnector env).host = "localhost")
  ∧ (env "POSTGRES_PORT" = Option.none → (initConnector env).port = "5432")
  ∧ (initConnector env).dbname = env "POSTGRES_DB"
  ∧ (initConnector env).user = env "POSTGRES_USER"
  ∧ (initConnector env).password = env "POSTGRES_PASSWORD" := by
  refine ⟨?_, ?_, ?_, rfl, rfl, rfl⟩
  · simp only [initConnector, hH, hP, hD, hU, hW]
  · intro hnone
    simp [initConnector, hnone]
  · intro hnone
    simp [initConnector, hnone]

/-- C8 amended witness: the `DB_*`-only environment and the empty environment
agree on every `POSTGRES_*` variable, hence yield the same configuration, with
the documented defaults. -/
theorem config_env_reads_witness :
    initConnector envDBNames = initConnector envEmpty
  ∧ (envDBNames "POSTGRES_HOST" = Option.none →
       (initConnector envDBNames).host = "localhost")
  ∧ (envDBNames "POSTGRES_PORT" = Option.none →
       (initConnector envDBNames).port = "5432")
  ∧ (initConnector envDBNames).dbname = envDBNames "POSTGRES_DB"
  ∧ (initConnector envDBNames).user = envDBNames "POSTGRES_USER"
  ∧ (initConnector envDBNames).password = envDBNames "POSTGRES_PASSWORD" :=
  config_env_reads envDBNames envEmpty (by decide) (by decide) (by decide)
    (by decide) (by decide)

end DBServer
